import Mathlib

/-!
Verification of `config.py` (Emotiv Cortex API configuration loader).

The module reads environment variables (optionally pre-populated from a
`.env` file via `python-dotenv`), exposes typed settings with defaults,
and provides `validate()`, which raises on missing credentials and
otherwise ensures the export folder exists.  We embed the environment as
an association list, the filesystem as a list of existing paths, and the
module-level settings load as a fallible function (Python `int()` can
raise at import time).
-/

set_option maxRecDepth 16384

namespace CortexConfig

/-- A process environment: association list from variable name to value.
`os.environ` lookup finds the first matching binding. -/
abbrev Env := List (String × String)

/-- `os.environ.get k`: the value of `k` if present (even if empty). -/
def getEnvOpt (env : Env) (k : String) : Option String :=
  (env.find? (fun p => p.1 == k)).map Prod.snd

/-- `os.getenv(k, d)`: the bound value when the variable is present
(including when it is bound to the empty string), else the default `d`. -/
def getenv (env : Env) (k d : String) : String :=
  (getEnvOpt env k).getD d

/-- Modelled from the spec: the repository calls `load_dotenv` from the
optional `python-dotenv` dependency, whose source is not part of this
repository.  Per the spec, each `KEY=VALUE` pair parsed from the settings
file is injected into the process environment only for keys not already
present; pre-existing environment variables take precedence. -/
def load_dotenv (fileVars : List (String × String)) (env : Env) : Env :=
  fileVars.foldl
    (fun e kv => if (getEnvOpt e kv.1).isSome then e else e ++ [kv]) env

/-- One decimal digit of a Python integer literal. -/
def digitVal (c : Char) : Nat := c.toNat - '0'.toNat

/-- Tail of a Python decimal digit run: digits, with single underscores
allowed between digits (`int("2_5")` is legal, `int("2__5")` is not). -/
def digitTail : List Char → Bool
  | [] => true
  | '_' :: rest =>
    match rest with
    | [] => false
    | c :: rest2 => c.isDigit && digitTail rest2
  | c :: rest => c.isDigit && digitTail rest

/-- A full Python decimal digit run: nonempty, starts with a digit. -/
def digitsOk : List Char → Bool
  | [] => false
  | c :: rest => c.isDigit && digitTail rest

/-- Numeric value of a digit run, ignoring underscores. -/
def digitsVal (cs : List Char) : Nat :=
  (cs.filter (fun c => !(c == '_'))).foldl (fun a c => a * 10 + digitVal c) 0

/-- The unsigned part of Python `int(str)`. -/
def pyNat (cs : List Char) : Option Nat :=
  if digitsOk cs then some (digitsVal cs) else none

/-- Python `int(str)`: strips surrounding whitespace, accepts an optional
sign followed by a digit run, raises `ValueError` (here: `none`) on
anything else. -/
def pythonInt (s : String) : Option Int :=
  let cs := ((s.data.dropWhile Char.isWhitespace).reverse.dropWhile
      Char.isWhitespace).reverse
  match cs with
  | '+' :: rest => (pyNat rest).map (fun n => (n : Int))
  | '-' :: rest => (pyNat rest).map (fun n => -(n : Int))
  | rest => (pyNat rest).map (fun n => (n : Int))

/-- ASCII lowercasing of one character (Python `str.lower` restricted to
the ASCII range relevant to the compared tokens). -/
def charLower (c : Char) : Char :=
  if c.toNat ≥ 65 && c.toNat ≤ 90 then Char.ofNat (c.toNat + 32) else c

/-- `raw.lower()` as used on the `EMOTIV_DEBUG` text. -/
def pyLower (s : String) : String :=
  String.mk (s.data.map charLower)

/-- The boolean coercion applied to `EMOTIV_DEBUG`:
`raw.lower() in ("1", "true", "yes")`. -/
def coerceDebug (raw : String) : Bool :=
  ["1", "true", "yes"].contains (pyLower raw)

/-- Default export folder: `str(Path.home() / "cortex_exports")`. -/
def defaultExportFolder (home : String) : String :=
  home ++ "/cortex_exports"

/-- The module-level settings snapshot of `config.py`. -/
structure Settings where
  CLIENT_ID : String
  CLIENT_SECRET : String
  HEADSET_ID : String
  LICENSE : String
  DEBIT : Int
  DEBUG : Bool
  EXPORT_FOLDER : String
deriving DecidableEq, Repr

/-- Module-level loading of all seven settings from the environment.
`DEBIT: int = int(os.getenv("EMOTIV_DEBIT", "10"))` can raise
`ValueError`, which propagates (modelled as `Except.error`); every other
assignment always succeeds. `home` stands for `Path.home()`. -/
def loadSettings (env : Env) (home : String) : Except String Settings :=
  let debitRaw := getenv env "EMOTIV_DEBIT" "10"
  match pythonInt debitRaw with
  | none => Except.error ("invalid literal for int() with base 10: " ++ debitRaw)
  | some d =>
    Except.ok
      { CLIENT_ID := getenv env "EMOTIV_CLIENT_ID" ""
        CLIENT_SECRET := getenv env "EMOTIV_CLIENT_SECRET" ""
        HEADSET_ID := getenv env "EMOTIV_HEADSET_ID" ""
        LICENSE := getenv env "EMOTIV_LICENSE" ""
        DEBIT := d
        DEBUG := coerceDebug (getenv env "EMOTIV_DEBUG" "false")
        EXPORT_FOLDER :=
          getenv env "EMOTIV_EXPORT_FOLDER" (defaultExportFolder home) }

/-- The filesystem, abstracted to the list of existing directory paths. -/
abbrev FS := List String

/-- Create one directory if it does not already exist (`exist_ok=True`). -/
def insertPath (fs : FS) (p : String) : FS :=
  if p ∈ fs then fs else fs ++ [p]

/-- Split a character list at `/` separators. -/
def splitSlash : List Char → List (List Char)
  | [] => [[]]
  | c :: rest =>
    if c = '/' then [] :: splitSlash rest
    else
      match splitSlash rest with
      | [] => [[c]]
      | g :: gs => (c :: g) :: gs

/-- Join strings with a separator (structural `str.join`). -/
def joinWith (sep : String) : List String → String
  | [] => ""
  | [s] => s
  | s :: rest => s ++ sep ++ joinWith sep rest

/-- The chain of ancestor paths of `p`, shortest first, obtained from its
`/`-separated components (what `parents=True` creates along the way). -/
def parentChain (p : String) : List String :=
  let comps := (splitSlash p.data).map String.mk
  (List.range comps.length).map
    (fun i => joinWith "/" (comps.take (i + 1)))

/-- `Path(p).mkdir(parents=True, exist_ok=True)`: create every ancestor
of `p` and `p` itself, skipping paths that already exist. -/
def mkdirParents (fs : FS) (p : String) : FS :=
  (parentChain p ++ [p]).foldl insertPath fs

/-- The error raised by `validate()` on missing credentials (a
`RuntimeError` in the source; the spec's `ConfigurationError`). -/
structure ConfigurationError where
  message : String
deriving DecidableEq, Repr

/-- The 63-character `═` rule of the banner. -/
def bannerRule : String :=
  String.mk (List.replicate 63 '═')

/-- The `RuntimeError` message built by `validate()`, with
`{', '.join(missing)}` interpolated into the banner. -/
def errMessage (missing : List String) : String :=
  "\n" ++
  bannerRule ++ "╗\n" ++
  "  Missing Cortex credentials!                                  \n" ++
  "  Please copy `.env.example` → `.env` and fill in:            \n" ++
  "    " ++ joinWith ", " missing ++
  "                                       \n" ++
  "  See: https://emotiv.gitbook.io/cortex-api#create-a-cortex-app\n" ++
  bannerRule ++ "╝\n"

/-- The `missing` list built at the start of `validate()`:
`if not CLIENT_ID: missing.append(...)`, then the same for the secret
(Python string truthiness: a string is falsy exactly when empty). -/
def missingCreds (s : Settings) : List String :=
  (if s.CLIENT_ID = "" then ["EMOTIV_CLIENT_ID"] else []) ++
  (if s.CLIENT_SECRET = "" then ["EMOTIV_CLIENT_SECRET"] else [])

/-- `validate()`: raise a `RuntimeError` with the banner message when any
mandatory credential is missing, otherwise ensure the export folder
exists.  Returns the outcome paired with the filesystem after the call
(the raise happens before the directory creation, so the filesystem is
untouched on failure). -/
def validate (s : Settings) (fs : FS) :
    Except ConfigurationError Unit × FS :=
  match missingCreds s with
  | [] => (Except.ok (), mkdirParents fs s.EXPORT_FOLDER)
  | m => (Except.error ⟨errMessage m⟩, fs)

/-- `needle` starts `hay`. -/
def isPre : List Char → List Char → Bool
  | [], _ => true
  | _ :: _, [] => false
  | a :: as, b :: bs => a == b && isPre as bs

/-- `needle` occurs contiguously somewhere in `hay`. -/
def occursL (n : List Char) : List Char → Bool
  | [] => isPre n []
  | c :: rest => isPre n (c :: rest) || occursL n rest

/-- Python's `needle in hay` on strings. -/
def occursIn (needle hay : String) : Bool :=
  occursL needle.data hay.data

/-- `f"{key:<16}"`: pad `key` on the right with spaces to width 16. -/
def padRight (s : String) (w : Nat) : String :=
  s ++ String.mk (List.replicate (w - s.length) ' ')

/-- The value printed for `CLIENT_SECRET`:
`("*" * len(CLIENT_SECRET)) if CLIENT_SECRET else "(not set)"`. -/
def displaySecret (secret : String) : String :=
  if secret = "" then "(not set)" else String.mk (List.replicate secret.length '*')

/-- The key/value rows of the `__main__` diagnostic table. -/
def reportRows (s : Settings) : List (String × String) :=
  [("CLIENT_ID", if s.CLIENT_ID = "" then "(not set)" else s.CLIENT_ID),
   ("CLIENT_SECRET", displaySecret s.CLIENT_SECRET),
   ("HEADSET_ID", if s.HEADSET_ID = "" then "(auto-detect)" else s.HEADSET_ID),
   ("LICENSE", if s.LICENSE = "" then "(none)" else s.LICENSE),
   ("DEBIT", toString s.DEBIT),
   ("DEBUG", if s.DEBUG then "True" else "False"),
   ("EXPORT_FOLDER", s.EXPORT_FOLDER)]

/-- Everything the `__main__` self-test prints: the header, the
formatted rows `f"  {key:<16} : {val}"`, then either the success line or
the caught `RuntimeError`'s message. -/
def reportText (s : Settings) (fs : FS) : String :=
  let rows := (reportRows s).map
    (fun kv => "  " ++ padRight kv.1 16 ++ " : " ++ kv.2)
  let tail :=
    match (validate s fs).1 with
    | Except.ok _ => ["\n✔  Configuration looks good!"]
    | Except.error e => [e.message]
  joinWith "\n"
    ("=== Emotiv Cortex Configuration ===" :: (rows ++ tail))

/-! ### Helper lemmas -/

theorem getenv_eq_default {env : Env} {k : String} (d : String)
    (h : getEnvOpt env k = none) : getenv env k d = d := by
  simp [getenv, h]

theorem getenv_eq_val {env : Env} {k v : String} (d : String)
    (h : getEnvOpt env k = some v) : getenv env k d = v := by
  simp [getenv, h]

theorem getEnvOpt_append {env : Env} {k : String} (l : Env)
    (h : (getEnvOpt env k).isSome) :
    getEnvOpt (env ++ l) k = getEnvOpt env k := by
  induction env with
  | nil => simp [getEnvOpt] at h
  | cons p rest ih =>
    by_cases hp : p.1 == k
    · simp [getEnvOpt, List.find?, hp]
    · simp only [getEnvOpt, List.cons_append, List.find?, hp] at h ⊢
      exact ih h

theorem load_dotenv_no_override (fileVars : List (String × String))
    (env : Env) (k : String) (h : (getEnvOpt env k).isSome) :
    getEnvOpt (load_dotenv fileVars env) k = getEnvOpt env k := by
  induction fileVars generalizing env with
  | nil => rfl
  | cons kv rest ih =>
    show getEnvOpt (load_dotenv rest
      (if (getEnvOpt env kv.1).isSome then env else env ++ [kv])) k = _
    by_cases hkv : (getEnvOpt env kv.1).isSome
    · rw [if_pos hkv]
      exact ih env h
    · rw [if_neg hkv, ih (env ++ [kv]) (by rw [getEnvOpt_append [kv] h]; exact h),
        getEnvOpt_append [kv] h]

theorem mem_insertPath_self (fs : FS) (p : String) : p ∈ insertPath fs p := by
  by_cases h : p ∈ fs <;> simp [insertPath, h]

theorem mem_insertPath_of_mem {fs : FS} {q : String} (r : String)
    (h : q ∈ fs) : q ∈ insertPath fs r := by
  by_cases hr : r ∈ fs <;> simp [insertPath, hr, h]

theorem mem_foldl_insertPath {q : String} :
    ∀ (l : List String) (fs : FS), q ∈ fs → q ∈ l.foldl insertPath fs
  | [], _, h => h
  | r :: rest, fs, h =>
    mem_foldl_insertPath rest (insertPath fs r) (mem_insertPath_of_mem r h)

theorem mem_foldl_insertPath_of_mem_list {q : String} :
    ∀ (l : List String) (fs : FS), q ∈ l → q ∈ l.foldl insertPath fs := by
  intro l
  induction l with
  | nil => intro fs h; cases h
  | cons r rest ih =>
    intro fs h
    rcases List.mem_cons.mp h with rfl | h2
    · exact mem_foldl_insertPath rest _ (mem_insertPath_self fs q)
    · exact ih _ h2

theorem foldl_insertPath_of_subset :
    ∀ (l : List String) (fs : FS), (∀ q ∈ l, q ∈ fs) →
      l.foldl insertPath fs = fs := by
  intro l
  induction l with
  | nil => intro fs _; rfl
  | cons r rest ih =>
    intro fs h
    have hr : insertPath fs r = fs := by
      simp [insertPath, h r (List.mem_cons_self r rest)]
    rw [List.foldl_cons, hr]
    exact ih fs (fun q hq => h q (List.mem_cons_of_mem _ hq))

theorem self_mem_mkdirParents (fs : FS) (p : String) :
    p ∈ mkdirParents fs p := by
  unfold mkdirParents
  rw [List.foldl_append]
  exact mem_insertPath_self _ p

theorem mkdirParents_idem (fs : FS) (p : String) :
    mkdirParents (mkdirParents fs p) p = mkdirParents fs p := by
  conv_lhs => rw [mkdirParents]
  exact foldl_insertPath_of_subset _ _
    (fun q hq => mem_foldl_insertPath_of_mem_list _ _ hq)

theorem validate_ok_eq {s : Settings} (fs : FS)
    (h1 : s.CLIENT_ID ≠ "") (h2 : s.CLIENT_SECRET ≠ "") :
    validate s fs = (Except.ok (), mkdirParents fs s.EXPORT_FOLDER) := by
  simp [validate, missingCreds, h1, h2]

theorem mem_of_isPre {c : Char} :
    ∀ {n h : List Char}, isPre n h = true → c ∈ n → c ∈ h
  | [], _, _, hc => absurd hc (List.not_mem_nil c)
  | _ :: _, [], hp, _ => by simp [isPre] at hp
  | a :: as, b :: bs, hp, hc => by
    rw [isPre, Bool.and_eq_true] at hp
    rcases List.mem_cons.mp hc with rfl | h2
    · exact (eq_of_beq hp.1) ▸ List.mem_cons_self b bs
    · exact List.mem_cons_of_mem b (mem_of_isPre hp.2 h2)

theorem mem_of_occursL {c : Char} :
    ∀ {h n : List Char}, occursL n h = true → c ∈ n → c ∈ h
  | [], n, hocc, hc => by
    cases n with
    | nil => exact absurd hc (List.not_mem_nil c)
    | cons a as => simp [occursL, isPre] at hocc
  | b :: bs, n, hocc, hc => by
    rw [occursL, Bool.or_eq_true] at hocc
    rcases hocc with hp | ho
    · exact mem_of_isPre hp hc
    · exact List.mem_cons_of_mem b (mem_of_occursL ho hc)

theorem occursIn_false_of_missing_char {needle hay : String} {c : Char}
    (hc : c ∈ needle.data) (hn : c ∉ hay.data) :
    occursIn needle hay = false := by
  by_contra h
  exact hn (mem_of_occursL (eq_true_of_ne_false h) hc)

/-! ### Claim theorems -/

/-- C1: for every environment state whose loaded settings have an empty
`client_id` or `client_secret` (or both), `validate()` fails with a
configuration error whose message names every missing field — when both
are missing the message contains both field names, so the check does not
short-circuit — and includes the setup-instructions URL. -/
theorem validate_missing_reports_all_fields
    (env : Env) (home : String) (s : Settings) (fs : FS)
    ( _hload : loadSettings env home = Except.ok s)
    (hmiss : s.CLIENT_ID = "" ∨ s.CLIENT_SECRET = "") :
    ∃ e : ConfigurationError, (validate s fs).1 = Except.error e ∧
      (s.CLIENT_ID = "" → occursIn "EMOTIV_CLIENT_ID" e.message = true) ∧
      (s.CLIENT_SECRET = "" → occursIn "EMOTIV_CLIENT_SECRET" e.message = true) ∧
      occursIn "https://emotiv.gitbook.io/cortex-api" e.message = true := by
  by_cases h1 : s.CLIENT_ID = "" <;> by_cases h2 : s.CLIENT_SECRET = ""
  · exact ⟨⟨errMessage ["EMOTIV_CLIENT_ID", "EMOTIV_CLIENT_SECRET"]⟩,
      by simp [validate, missingCreds, h1, h2],
      fun _ => by decide, fun _ => by decide, by decide⟩
  · exact ⟨⟨errMessage ["EMOTIV_CLIENT_ID"]⟩,
      by simp [validate, missingCreds, h1, h2],
      fun _ => by decide, fun h => absurd h h2, by decide⟩
  · exact ⟨⟨errMessage ["EMOTIV_CLIENT_SECRET"]⟩,
      by simp [validate, missingCreds, h1, h2],
      fun h => absurd h h1, fun _ => by decide, by decide⟩
  · rcases hmiss with h | h
    · exact absurd h h1
    · exact absurd h h2

/-- Witness for C1 at a concrete environment missing both credentials. -/
theorem validate_missing_reports_all_fields_witness :
    ∃ e : ConfigurationError,
      (validate ⟨"", "", "", "", 10, false, "/h/cortex_exports"⟩ []).1 =
        Except.error e ∧
      ((⟨"", "", "", "", 10, false, "/h/cortex_exports"⟩ : Settings).CLIENT_ID = "" →
        occursIn "EMOTIV_CLIENT_ID" e.message = true) ∧
      ((⟨"", "", "", "", 10, false, "/h/cortex_exports"⟩ : Settings).CLIENT_SECRET = "" →
        occursIn "EMOTIV_CLIENT_SECRET" e.message = true) ∧
      occursIn "https://emotiv.gitbook.io/cortex-api" e.message = true :=
  validate_missing_reports_all_fields [] "/h"
    ⟨"", "", "", "", 10, false, "/h/cortex_exports"⟩ [] rfl (Or.inl rfl)

/-- C2: for every environment state whose loaded settings have both
mandatory credentials non-empty, `validate()` returns normally and the
`export_folder` path exists on the filesystem afterward. -/
theorem validate_success_creates_export_folder
    (env : Env) (home : String) (s : Settings) (fs : FS)
    ( _hload : loadSettings env home = Except.ok s)
    (h1 : s.CLIENT_ID ≠ "") (h2 : s.CLIENT_SECRET ≠ "") :
    (validate s fs).1 = Except.ok () ∧
    s.EXPORT_FOLDER ∈ (validate s fs).2 := by
  rw [validate_ok_eq fs h1 h2]
  exact ⟨rfl, self_mem_mkdirParents fs s.EXPORT_FOLDER⟩

/-- Witness for C2 at a concrete environment with both credentials set. -/
theorem validate_success_creates_export_folder_witness :
    (validate ⟨"abc", "xyz", "", "", 10, false, "/h/cortex_exports"⟩ []).1 =
      Except.ok () ∧
    "/h/cortex_exports" ∈
      (validate ⟨"abc", "xyz", "", "", 10, false, "/h/cortex_exports"⟩ []).2 :=
  validate_success_creates_export_folder
    [("EMOTIV_CLIENT_ID", "abc"), ("EMOTIV_CLIENT_SECRET", "xyz")] "/h"
    ⟨"abc", "xyz", "", "", 10, false, "/h/cortex_exports"⟩ [] rfl
    (by decide) (by decide)

/-- C4: a key already present in the process environment is never
overridden by the settings file's value for the same key
(`load_dotenv` injects only keys not already present). -/
theorem dotenv_does_not_override_existing
    (fileVars : List (String × String)) (env : Env) (k : String)
    (h : (getEnvOpt env k).isSome) :
    getEnvOpt (load_dotenv fileVars env) k = getEnvOpt env k :=
  load_dotenv_no_override fileVars env k h

/-- Witness for C4: the shell's value survives a conflicting file entry. -/
theorem dotenv_does_not_override_existing_witness :
    getEnvOpt (load_dotenv [("EMOTIV_CLIENT_ID", "fromfile")]
      [("EMOTIV_CLIENT_ID", "fromshell")]) "EMOTIV_CLIENT_ID" =
    getEnvOpt [("EMOTIV_CLIENT_ID", "fromshell")] "EMOTIV_CLIENT_ID" :=
  dotenv_does_not_override_existing [("EMOTIV_CLIENT_ID", "fromfile")]
    [("EMOTIV_CLIENT_ID", "fromshell")] "EMOTIV_CLIENT_ID" (by decide)

/-- C7: `validate()` is idempotent for a valid configuration — the first
call succeeds, and a second call on the resulting filesystem succeeds as
well and changes nothing (directory creation does not fail on the
already-existing export folder). -/
theorem validate_idempotent
    (env : Env) (home : String) (s : Settings) (fs : FS)
    ( _hload : loadSettings env home = Except.ok s)
    (h1 : s.CLIENT_ID ≠ "") (h2 : s.CLIENT_SECRET ≠ "") :
    (validate s fs).1 = Except.ok () ∧
    validate s (validate s fs).2 = (Except.ok (), (validate s fs).2) := by
  rw [validate_ok_eq fs h1 h2]
  refine ⟨rfl, ?_⟩
  rw [validate_ok_eq _ h1 h2, mkdirParents_idem]

/-- Witness for C7 at a concrete valid configuration. -/
theorem validate_idempotent_witness :
    (validate ⟨"abc", "xyz", "", "", 10, false, "/h/cortex_exports"⟩ []).1 =
      Except.ok () ∧
    validate ⟨"abc", "xyz", "", "", 10, false, "/h/cortex_exports"⟩
        (validate ⟨"abc", "xyz", "", "", 10, false, "/h/cortex_exports"⟩ []).2 =
      (Except.ok (),
       (validate ⟨"abc", "xyz", "", "", 10, false, "/h/cortex_exports"⟩ []).2) :=
  validate_idempotent
    [("EMOTIV_CLIENT_ID", "abc"), ("EMOTIV_CLIENT_SECRET", "xyz")] "/h"
    ⟨"abc", "xyz", "", "", 10, false, "/h/cortex_exports"⟩ [] rfl
    (by decide) (by decide)

/-- C9: `validate()` is atomic on failure — when a mandatory credential
is missing it raises before any filesystem side effect, so the
filesystem (in particular the export folder) is unchanged. -/
theorem validate_failure_no_side_effect
    (env : Env) (home : String) (s : Settings) (fs : FS)
    ( _hload : loadSettings env home = Except.ok s)
    (hmiss : s.CLIENT_ID = "" ∨ s.CLIENT_SECRET = "") :
    (∃ e, (validate s fs).1 = Except.error e) ∧ (validate s fs).2 = fs := by
  by_cases h1 : s.CLIENT_ID = "" <;> by_cases h2 : s.CLIENT_SECRET = ""
  · exact ⟨⟨⟨errMessage ["EMOTIV_CLIENT_ID", "EMOTIV_CLIENT_SECRET"]⟩,
      by simp [validate, missingCreds, h1, h2]⟩,
      by simp [validate, missingCreds, h1, h2]⟩
  · exact ⟨⟨⟨errMessage ["EMOTIV_CLIENT_ID"]⟩,
      by simp [validate, missingCreds, h1, h2]⟩,
      by simp [validate, missingCreds, h1, h2]⟩
  · exact ⟨⟨⟨errMessage ["EMOTIV_CLIENT_SECRET"]⟩,
      by simp [validate, missingCreds, h1, h2]⟩,
      by simp [validate, missingCreds, h1, h2]⟩
  · rcases hmiss with h | h
    · exact absurd h h1
    · exact absurd h h2

/-- Witness for C9 at a concrete environment missing the secret. -/
theorem validate_failure_no_side_effect_witness :
    (∃ e, (validate ⟨"abc", "", "", "", 10, false, "/h/cortex_exports"⟩
      ["/pre"]).1 = Except.error e) ∧
    (validate ⟨"abc", "", "", "", 10, false, "/h/cortex_exports"⟩
      ["/pre"]).2 = ["/pre"] :=
  validate_failure_no_side_effect [("EMOTIV_CLIENT_ID", "abc")] "/h"
    ⟨"abc", "", "", "", 10, false, "/h/cortex_exports"⟩ ["/pre"] rfl
    (Or.inr rfl)

/-- C10: the mandatory-credential check is exactly string non-emptiness
with no trimming or normalization — `validate()` succeeds if and only if
both credentials are non-empty, so whitespace-only credentials (non-empty
strings) are treated as present and validation succeeds. -/
theorem validate_ok_iff_nonempty_credentials (s : Settings) (fs : FS) :
    (validate s fs).1 = Except.ok () ↔
      (s.CLIENT_ID ≠ "" ∧ s.CLIENT_SECRET ≠ "") := by
  by_cases h1 : s.CLIENT_ID = "" <;> by_cases h2 : s.CLIENT_SECRET = "" <;>
    simp [validate, missingCreds, h1, h2]

/-- C3 counterexample: with `EMOTIV_EXPORT_FOLDER` set to the empty
string, the loaded `EXPORT_FOLDER` is the empty string, not the
documented default `home + "/cortex_exports"` — `os.getenv` falls back
only on absence, not on emptiness. -/
theorem empty_export_folder_env_not_default :
    ∃ s, loadSettings [("EMOTIV_EXPORT_FOLDER", "")] "/home/user" =
        Except.ok s ∧
      s.EXPORT_FOLDER = "" ∧ s.EXPORT_FOLDER ≠ "/home/user/cortex_exports" :=
  ⟨⟨"", "", "", "", 10, false, ""⟩, rfl, rfl, by decide⟩

/-- C3 (amended): when the corresponding environment variable is absent,
the documented default is used: `debit = 10`, `debug = false`, and
`export_folder = home + "/cortex_exports"`.  (A variable present but
bound to the empty string is not defaulted: the empty string is used for
`export_folder` and `int("")` raises for `debit`.) -/
theorem defaults_used_when_env_absent
    (env : Env) (home : String)
    (hd : getEnvOpt env "EMOTIV_DEBIT" = none)
    (hb : getEnvOpt env "EMOTIV_DEBUG" = none)
    (he : getEnvOpt env "EMOTIV_EXPORT_FOLDER" = none) :
    ∃ s, loadSettings env home = Except.ok s ∧
      s.DEBIT = 10 ∧ s.DEBUG = false ∧
      s.EXPORT_FOLDER = home ++ "/cortex_exports" := by
  simp only [loadSettings, getenv_eq_default _ hd, getenv_eq_default _ hb,
    getenv_eq_default _ he]
  exact ⟨_, rfl, rfl, rfl, rfl⟩

/-- Witness for C3 (amended) at the empty environment. -/
theorem defaults_used_when_env_absent_witness :
    ∃ s, loadSettings [] "/home/user" = Except.ok s ∧
      s.DEBIT = 10 ∧ s.DEBUG = false ∧
      s.EXPORT_FOLDER = "/home/user" ++ "/cortex_exports" :=
  defaults_used_when_env_absent [] "/home/user" rfl rfl rfl

/-- C5: the boolean coercion of the debug setting is true exactly when
the lowercased raw text is one of the tokens `"1"`, `"true"`, `"yes"`;
every other string coerces to false. -/
theorem debug_coercion_iff_token (raw : String) :
    coerceDebug raw = true ↔
      pyLower raw ∈ (["1", "true", "yes"] : List String) := by
  simp [coerceDebug]

/-- C6: integer coercion of the debit setting — absent `EMOTIV_DEBIT`
yields the default 10, the text `"25"` yields 25, and a value `int()`
cannot parse makes the module-level settings load fail with the
`ValueError`, which propagates unchanged. -/
theorem debit_coercion_spec :
    (∀ (env : Env) (home : String), getEnvOpt env "EMOTIV_DEBIT" = none →
      ∃ s, loadSettings env home = Except.ok s ∧ s.DEBIT = 10) ∧
    (∀ (env : Env) (home : String),
      getEnvOpt env "EMOTIV_DEBIT" = some "25" →
      ∃ s, loadSettings env home = Except.ok s ∧ s.DEBIT = 25) ∧
    (∀ (env : Env) (home : String) (t : String),
      getEnvOpt env "EMOTIV_DEBIT" = some t → pythonInt t = none →
      loadSettings env home =
        Except.error ("invalid literal for int() with base 10: " ++ t)) := by
  refine ⟨?_, ?_, ?_⟩
  · intro env home h
    simp only [loadSettings, getenv_eq_default _ h]
    exact ⟨_, rfl, rfl⟩
  · intro env home h
    simp only [loadSettings, getenv_eq_val _ h]
    exact ⟨_, rfl, rfl⟩
  · intro env home t hsome hnone
    simp only [loadSettings, getenv_eq_val _ hsome, hnone]

/-- Witness for C6: default, `"25"`, and the non-numeric text `"zz"`. -/
theorem debit_coercion_spec_witness :
    (∃ s, loadSettings [] "/h" = Except.ok s ∧ s.DEBIT = 10) ∧
    (∃ s, loadSettings [("EMOTIV_DEBIT", "25")] "/h" = Except.ok s ∧
      s.DEBIT = 25) ∧
    loadSettings [("EMOTIV_DEBIT", "zz")] "/h" =
      Except.error ("invalid literal for int() with base 10: " ++ "zz") :=
  ⟨debit_coercion_spec.1 [] "/h" rfl,
   debit_coercion_spec.2.1 [("EMOTIV_DEBIT", "25")] "/h" rfl,
   debit_coercion_spec.2.2 [("EMOTIV_DEBIT", "zz")] "/h" "zz" rfl (by decide)⟩

/-- C8 counterexample: with the secret `"*"` (non-empty), the diagnostic
report does contain the literal secret value — the masked placeholder
itself coincides with it — so "the output never contains the secret"
fails as a universal statement. -/
theorem report_contains_star_secret :
    (Settings.mk "a" "*" "" "" 10 false "/e").CLIENT_SECRET ≠ "" ∧
    occursIn (Settings.mk "a" "*" "" "" 10 false "/e").CLIENT_SECRET
      (reportText (Settings.mk "a" "*" "" "" 10 false "/e") []) = true :=
  ⟨by decide, by decide⟩

/-- C8 (amended): the diagnostic report shows the secret as a masked
placeholder of matching length (`"*" * len(secret)`), never plaintext in
its own field; the full report text therefore does not contain the
secret whenever the secret has at least one character that does not
occur anywhere in the report (it can still coincide with other displayed
content, e.g. a secret consisting only of `'*'`). -/
theorem report_masks_secret
    (s : Settings) (fs : FS) (c : Char)
    (hs : s.CLIENT_SECRET ≠ "")
    (hc : c ∈ s.CLIENT_SECRET.data)
    (hn : c ∉ (reportText s fs).data) :
    displaySecret s.CLIENT_SECRET =
      String.mk (List.replicate s.CLIENT_SECRET.length '*') ∧
    occursIn s.CLIENT_SECRET (reportText s fs) = false :=
  ⟨by simp [displaySecret, hs], occursIn_false_of_missing_char hc hn⟩

/-- Witness for C8 (amended) with the secret `"q"`, whose character `'q'`
occurs nowhere in the report. -/
theorem report_masks_secret_witness :
    displaySecret (Settings.mk "a" "q" "" "" 10 false "/e").CLIENT_SECRET =
      String.mk (List.replicate
        (Settings.mk "a" "q" "" "" 10 false "/e").CLIENT_SECRET.length '*') ∧
    occursIn (Settings.mk "a" "q" "" "" 10 false "/e").CLIENT_SECRET
      (reportText (Settings.mk "a" "q" "" "" 10 false "/e") []) = false :=
  report_masks_secret (Settings.mk "a" "q" "" "" 10 false "/e") [] 'q'
    (by decide) (by decide) (by decide)

end CortexConfig

